import Mathlib

/-!
# Verification of the weather-api function app

A shallow embedding, in Lean 4, of the single source file `function_app.py`
of the `weather-api` repository, together with theorems settling the
specification claims about it.

Modelling conventions:

* JSON values (Python dicts/lists/strings/numbers as they appear in
  provider responses and cache payloads) are the inductive type `Json`.
  Python numbers are modelled as `ℚ` (the claims under study never depend
  on binary floating-point rounding).
* Python truthiness (`if cached:`, `x or y`) is modelled explicitly by
  `Json.truthy` / option-level helpers, mirroring Python's rules: `None`,
  `""`, `0`, `[]`, `{}`, `False` are falsy, everything else truthy.
* `dict.get(k)` returns `Option Json` (`none` for a missing key);
  `dict.get(k, d)` returns the default only when the key is missing.
* Wall-clock time is an integer number of seconds (UTC).  Ages and TTLs
  in the claims are compared only at whole-second boundaries, so the
  fractional part of Python's `total_seconds()` is immaterial.  A single
  `now` is used for all clock reads inside one request; the claims never
  depend on the sub-millisecond drift between consecutive `utcnow()`
  calls.
* The two Azure tables are modelled as total functions from keys to
  `Option` rows; per-row reads/writes are atomic, exactly as the spec's
  concurrency model assumes, and each request is evaluated sequentially.
* An uncaught Python exception is the `Except.error` case of the result;
  table mutations performed before the exception persist, so stateful
  functions return the new state separately from the `Except` value.
-/

/-- JSON values, the domain of provider responses and cache payloads. -/
inductive Json where
  | null
  | bool (b : Bool)
  | num (q : ℚ)
  | str (s : String)
  | arr (xs : List Json)
  | obj (kvs : List (String × Json))

/-- Python `dict.get(key)`: first binding for `key`, `none` when missing
(also `none` when the value is not a dict at all, a case that would raise
in Python and never arises under the theorems' hypotheses). -/
def Json.get (j : Json) (k : String) : Option Json :=
  match j with
  | .obj kvs => kvs.lookup k
  | _ => none

/-- Python truthiness of a JSON value: `None`, `False`, `0`, `""`, `[]`,
`{}` are falsy; everything else is truthy. -/
def Json.truthy : Json → Bool
  | .null => false
  | .bool b => b
  | .num q => q != 0
  | .str s => s != ""
  | .arr xs => !xs.isEmpty
  | .obj kvs => !kvs.isEmpty

/-- Python `a or b` where `a : Option Json` came from `dict.get` (missing
key = `None`, falsy) and the whole expression must produce a JSON value:
the first operand if truthy, otherwise the second. -/
def orElseTruthy (a : Option Json) (b : Json) : Json :=
  match a with
  | some v => if v.truthy then v else b
  | none => b

/-- Python `d.get(key, default)`: default only when the key is missing. -/
def Json.getD (j : Json) (k : String) (d : Json) : Json :=
  match j.get k with
  | some v => v
  | none => d

/-- Truthiness of a `dict.get` result: `None` (missing key) is falsy,
otherwise the value's own truthiness. -/
def truthyOpt : Option Json → Bool
  | some v => v.truthy
  | none => false

/-!
## SHA-1 and the cache key

`cache_key` in the source is `hashlib.sha1(city.lower().encode()).hexdigest()`.
SHA-1 is implemented here in full (FIPS 180-1) over `Nat` with explicit
`% 2^32`, operating on the UTF-8 bytes of the lowercased city, and producing
the lowercase hex digest, so that the embedding is executable and matches
`hashlib` bit for bit (checked below against standard test vectors).
-/

def utf8Bytes (c : Char) : List Nat :=
  let n := c.toNat
  if n < 128 then [n]
  else if n < 2048 then [192 + n / 64, 128 + n % 64]
  else if n < 65536 then [224 + n / 4096, 128 + n / 64 % 64, 128 + n % 64]
  else [240 + n / 262144, 128 + n / 4096 % 64, 128 + n / 64 % 64, 128 + n % 64]

def strBytes (s : String) : List Nat := (s.toList.map utf8Bytes).flatten

def w32 (n : Nat) : Nat := n % 4294967296

def rotl (s x : Nat) : Nat := w32 ((x <<< s) ||| (x >>> (32 - s)))

def bytesToWords : List Nat → List Nat
  | b0 :: b1 :: b2 :: b3 :: rest => (((b0 * 256 + b1) * 256 + b2) * 256 + b3) :: bytesToWords rest
  | _ => []

def sha1Extend (w : List Nat) : Nat → List Nat
  | 0 => w
  | n + 1 =>
    let w' := sha1Extend w n
    let l := w'.length
    w' ++ [rotl 1 (w'.getD (l - 3) 0 ^^^ w'.getD (l - 8) 0 ^^^ w'.getD (l - 14) 0 ^^^ w'.getD (l - 16) 0)]

def sha1F (i b c d : Nat) : Nat :=
  if i < 20 then (b &&& c) ||| ((b ^^^ 4294967295) &&& d)
  else if i < 40 then b ^^^ c ^^^ d
  else if i < 60 then (b &&& c) ||| (b &&& d) ||| (c &&& d)
  else b ^^^ c ^^^ d

def sha1K (i : Nat) : Nat :=
  if i < 20 then 1518500249 else if i < 40 then 1859775393
  else if i < 60 then 2400959708 else 3395469782

structure Sha1State where
  a : Nat
  b : Nat
  c : Nat
  d : Nat
  e : Nat

def sha1Round (w : List Nat) (st : Sha1State) (i : Nat) : Sha1State :=
  let t := w32 (rotl 5 st.a + sha1F i st.b st.c st.d + st.e + sha1K i + w.getD i 0)
  ⟨t, st.a, rotl 30 st.b, st.c, st.d⟩

def sha1Chunk (h : Sha1State) (chunk : List Nat) : Sha1State :=
  let w := sha1Extend (bytesToWords chunk) 64
  let st := (List.range 80).foldl (sha1Round w) h
  ⟨w32 (h.a + st.a), w32 (h.b + st.b), w32 (h.c + st.c), w32 (h.d + st.d), w32 (h.e + st.e)⟩

def sha1Blocks : Nat → Sha1State → List Nat → Sha1State
  | 0, h, _ => h
  | _ + 1, h, [] => h
  | fuel + 1, h, l => sha1Blocks fuel (sha1Chunk h (l.take 64)) (l.drop 64)

def sha1Pad (msg : List Nat) : List Nat :=
  let ml := 8 * msg.length
  let r := (msg.length + 1) % 64
  let k := (120 - r) % 64
  msg ++ [128] ++ List.replicate k 0 ++ (List.range 8).map (fun i => (ml >>> (8 * (7 - i))) % 256)

def hex8 (n : Nat) : String :=
  let ds := Nat.toDigits 16 n
  String.mk (List.replicate (8 - ds.length) '0' ++ ds)

def sha1Hex (msg : List Nat) : String :=
  let padded := sha1Pad msg
  let h := sha1Blocks padded.length ⟨1732584193, 4023233417, 2562383102, 271733878, 3285377520⟩ padded
  hex8 h.a ++ hex8 h.b ++ hex8 h.c ++ hex8 h.d ++ hex8 h.e

def lowerStr (s : String) : String := String.mk (s.toList.map Char.toLower)

def cache_key (city : String) : String := sha1Hex (strBytes (lowerStr city))

/-!
## Provider response normalization

`build_current_from_hourly` (source lines 118–136) and the `current`
selection expression of the handler (source line 243).
-/

/-- The inner `pick` closure of `build_current_from_hourly`:
`arr[idx] if isinstance(arr, list) and arr else None` with `idx = -1`,
i.e. the last element of a non-empty list value, else `None`. -/
def pickHourly (hourly : Json) (key : String) : Json :=
  match hourly.get key with
  | some (.arr xs) => if xs.isEmpty then .null else xs.getLastD .null
  | _ => .null

/-- `build_current_from_hourly(data)`: `hourly = data.get("hourly", {})`,
`times = hourly.get("time") or []`, `if not times: return {}`, then the
snapshot dict with `times[-1]` and one `pick` per hourly field.
A truthy non-list `"time"` value (which Python would index or raise on)
is collapsed to the empty object; no theorem instantiates that case. -/
def build_current_from_hourly (data : Json) : Json :=
  let hourly := data.getD "hourly" (.obj [])
  match hourly.get "time" with
  | some (.arr (t :: ts)) =>
    .obj [("time", (t :: ts).getLastD .null),
          ("temperature_2m", pickHourly hourly "temperature_2m"),
          ("relative_humidity_2m", pickHourly hourly "relative_humidity_2m"),
          ("apparent_temperature", pickHourly hourly "apparent_temperature"),
          ("precipitation", pickHourly hourly "precipitation"),
          ("wind_speed_10m", pickHourly hourly "wind_speed_10m"),
          ("wind_direction_10m", pickHourly hourly "wind_direction_10m")]
  | _ => .obj []

/-- Source line 243:
`raw.get("current") or raw.get("current_weather") or build_current_from_hourly(raw)`. -/
def select_current (raw : Json) : Json :=
  orElseTruthy (raw.get "current")
    (orElseTruthy (raw.get "current_weather") (build_current_from_hourly raw))

/-!
## Demo city table (source lines 141–146)
-/

/-- `CITY_LATLON`: the fixed four-city coordinate dict. -/
def CITY_LATLON : List (String × ℚ × ℚ) :=
  [("jaipur", (26.9124, 75.7873)),
   ("mumbai", (19.0760, 72.8777)),
   ("delhi", (28.6139, 77.2090)),
   ("ahmedabad", (23.0225, 72.5714))]

/-!
## Cache store (source lines 151–187) and configuration
-/

/-- Configuration drawn from the environment: `INTERNAL_API_KEY`
(default `"dev-1234"`) and `CACHE_TTL` = `int(CACHE_TTL_SECONDS)`
(default 600 seconds; always a whole number of seconds, carried as `ℚ`
to compare directly against the fractional age). -/
structure Config where
  apiKey : String
  cacheTtl : ℤ

/-- The defaults baked into the source. -/
def defaultConfig : Config := { apiKey := "dev-1234", cacheTtl := 600 }

/-- The `timestampUtc` field of a stored cache row, as `get_cached`
classifies it: falsy (missing or empty string — `if not ts`), a non-empty
string `datetime.fromisoformat` rejects, or a parsed UTC time in seconds.
`set_cache` always writes `utcnow().isoformat()`, which parses back to the
same instant, i.e. `valid now`. -/
inductive TsField where
  | falsy
  | unparsable (s : String)
  | valid (t : ℤ)

/-- One row of the `WeatherCache` table (RowKey is always `"latest"`, so a
row is addressed by its PartitionKey alone).  `payloadJson` holds the value
of `json.dumps(payload)`; since `json.loads (json.dumps v) = v` on JSON
values, the serialized string is modelled by the JSON value itself. -/
structure CacheRow where
  city : String
  payloadJson : Json
  timestampUtc : TsField

/-- The `WeatherCache` table: PartitionKey → row. -/
abbrev CacheTable := String → Option CacheRow

/-- The `RateLimit` table: (PartitionKey, minute-window RowKey) → count.
The source's RowKey is `strftime("%Y%m%d%H%M")` of the truncated-to-minute
UTC time, an injective encoding of the minute; it is modelled by the
minute index `⌊now / 60⌋`. -/
abbrev RateTable := String × ℤ → Option Nat

/-- Uncaught Python exceptions that the embedding can produce:
`ValueError` from `datetime.fromisoformat` on an unparsable timestamp. -/
inductive PyErr where
  | valueError
deriving DecidableEq

/-- `get_cached(city)` (source lines 154–167): read the row at
`cache_key(city)` (a raised "not found" is caught and becomes `None`);
return `None` when `timestampUtc` is falsy; parse it — an unparsable
timestamp raises `ValueError` out of the function (it is *outside* the
`try`); return the payload when `age <= CACHE_TTL`, else `None`. -/
def get_cached (cfg : Config) (cT : CacheTable) (now : ℤ) (city : String) :
    Except PyErr (Option Json) :=
  match cT (cache_key city) with
  | none => .ok none
  | some ent =>
    match ent.timestampUtc with
    | .falsy => .ok none
    | .unparsable _ => .error .valueError
    | .valid t => if now - t ≤ cfg.cacheTtl then .ok (some ent.payloadJson) else .ok none

/-- `set_cache(city, payload)` (source lines 169–178): full overwrite of
the row at `cache_key(city)` with the serialized payload and the current
UTC timestamp. -/
def set_cache (cT : CacheTable) (now : ℤ) (city : String) (payload : Json) : CacheTable :=
  fun k => if k = cache_key city then some ⟨city, payload, .valid now⟩ else cT k

/-- `clear_cache(city)` (source lines 180–187): delete the row at
`cache_key(city)`; a raised "not found" is swallowed. -/
def clear_cache (cT : CacheTable) (city : String) : CacheTable :=
  fun k => if k = cache_key city then none else cT k

/-!
## Rate limiter (source lines 58–74)
-/

/-- The minute-window bucket of an instant (times under study are
non-negative, where integer division agrees with datetime truncation). -/
def window_key (now : ℤ) : ℤ := now / 60

/-- `rate_limit(key, limit=30)`: read the counter row for
`(key, current-minute)`; on success increment and replace it; when the read
raises (no row yet) upsert a fresh row at count 1.  Returns
`(count <= limit, count)` and the updated table. -/
def rate_limit (rT : RateTable) (now : ℤ) (key : String) (limit : Nat) :
    (Bool × Nat) × RateTable :=
  let rk := window_key now
  match rT (key, rk) with
  | some c =>
    ((decide (c + 1 ≤ limit), c + 1), fun p => if p = (key, rk) then some (c + 1) else rT p)
  | none =>
    ((decide (1 ≤ limit), 1), fun p => if p = (key, rk) then some 1 else rT p)

/-- `n` successive `rate_limit` calls for the same key at the same
instant, starting from table `rT`; returns the last call's `(permitted,
count)` (the `n = 0` base is a placeholder) and the final table. -/
def rl_calls (rT : RateTable) (now : ℤ) (key : String) (limit : Nat) :
    Nat → (Bool × Nat) × RateTable
  | 0 => ((true, 0), rT)
  | n + 1 => rate_limit (rl_calls rT now key limit n).2 now key limit

/-!
## Auth and the HTTP handler (source lines 54–56 and 192–254)
-/

/-- Python `str.strip()` with no arguments: remove leading and trailing
whitespace (implemented over the character list so the kernel can
evaluate it; Unicode whitespace beyond space/tab/CR/LF does not occur in
any input under study). -/
def stripStr (s : String) : String :=
  String.mk (((s.toList.dropWhile Char.isWhitespace).reverse.dropWhile Char.isWhitespace).reverse)

/-- The request-derived inputs the handler reads: the `x-api-key` header
and the `key`, `city`, `refresh`, `clear` query parameters (`none` =
absent). -/
structure WeatherRequest where
  headerApiKey : Option String
  paramKey : Option String
  paramCity : Option String
  paramRefresh : Option String
  paramClear : Option String

/-- `req.headers.get("x-api-key") or req.params.get("key")`: the header if
present and non-empty, otherwise the query parameter (possibly `None`). -/
def suppliedKey (req : WeatherRequest) : Option String :=
  match req.headerApiKey with
  | some h => if h ≠ "" then some h else req.paramKey
  | none => req.paramKey

/-- `check_api_key` (source lines 54–56):
`bool(supplied) and supplied == INTERNAL_API_KEY`. -/
def check_api_key (cfg : Config) (req : WeatherRequest) : Bool :=
  match suppliedKey req with
  | some s => s != "" && s == cfg.apiKey
  | none => false

/-- The terminal outcomes of the `weather` handler, one per `HttpResponse`
site of the source. -/
inductive Outcome where
  | unauthorized
  | cityRequired
  | rateLimited
  | okResp (source : String) (city : String) (data : Json)
  | cityNotSupported
  | providerFailed (details : String)

/-- The HTTP status code attached to each outcome in the source. -/
def statusOf : Outcome → Nat
  | .unauthorized => 401
  | .cityRequired => 400
  | .rateLimited => 429
  | .okResp _ _ _ => 200
  | .cityNotSupported => 400
  | .providerFailed _ => 502

/-- The mutable world a request runs against: the two Azure tables. -/
structure World where
  cache : CacheTable
  rate : RateTable

/-- Steps 4–5 of the handler (source lines 231–254): coordinate lookup in
`CITY_LATLON` on the lowercased city, then the provider call inside
`try/except`.  `provider lat lon` is the observable result of
`fetch_provider(lat, lon)` — the retry/breaker stack either returns the
parsed body or raises, and `str(e)` of the raised exception is the
`.error` payload.  On success the normalized payload is written through to
the cache and returned tagged `source=provider`; on any exception the
handler returns the 502 `provider_failed` outcome (`set_cache` is assumed
not to raise: storage is up). -/
def weather_fetch (provider : ℚ → ℚ → Except String Json) (now : ℤ)
    (w : World) (city : String) : Except PyErr Outcome × World :=
  match CITY_LATLON.lookup (lowerStr city) with
  | none => (.ok .cityNotSupported, w)
  | some (lat, lon) =>
    match provider lat lon with
    | .ok raw =>
      let payload := Json.obj
        [("lat", .num lat), ("lon", .num lon), ("current_weather", select_current raw)]
      (.ok (.okResp "provider" city payload), ⟨set_cache w.cache now city payload, w.rate⟩)
    | .error e => (.ok (.providerFailed e), w)

/-- The `weather` handler (source lines 192–254): auth gate, parameter
parsing (`city` stripped, `refresh`/`clear` compared to `"1"`), empty-city
check, optional cache clear, rate gate keyed by `INTERNAL_API_KEY` with
limit 30, cache fast path (skipped under `refresh`, taken only when the
cached payload is truthy), then `weather_fetch`.  An exception escaping
`get_cached` propagates out of the handler (`Except.error`); table writes
made before it persist in the returned `World`. -/
def weather (cfg : Config) (provider : ℚ → ℚ → Except String Json) (now : ℤ)
    (w : World) (req : WeatherRequest) : Except PyErr Outcome × World :=
  if ¬ check_api_key cfg req then (.ok .unauthorized, w)
  else
    let city := stripStr (req.paramCity.getD "")
    let refresh := req.paramRefresh == some "1"
    let wipe := req.paramClear == some "1"
    if city = "" then (.ok .cityRequired, w)
    else
      let cache1 := if wipe then clear_cache w.cache city else w.cache
      let rl := rate_limit w.rate now cfg.apiKey 30
      let w1 : World := ⟨cache1, rl.2⟩
      if ¬ rl.1.1 then (.ok .rateLimited, w1)
      else
        match (if refresh then Except.ok none else get_cached cfg cache1 now city) with
        | .error e => (.error e, w1)
        | .ok (some p) =>
          if p.truthy then (.ok (.okResp "cache" city p), w1)
          else weather_fetch provider now w1 city
        | .ok none => weather_fetch provider now w1 city

/-!
## Circuit breaker

The source configures `breaker = pybreaker.CircuitBreaker(fail_max=5,
reset_timeout=30)` (line 79) and gates `fetch_provider` with it; the
breaker's transition semantics live in the external `pybreaker` library,
not in this repository, so they are modelled from the spec below.
-/

/-- Breaker states.  HALF_OPEN is transient: it is entered from OPEN when
a call arrives after the cool-down, and left again within that same call
(trial success → CLOSED, trial failure → OPEN), so it is never the stored
state between calls and `breaker_call` folds it into the OPEN branch. -/
inductive BreakerTag where
  | closed
  | opened
deriving DecidableEq

/-- Modelled from the spec: `pybreaker.CircuitBreaker` state — a state
tag, the consecutive-failure counter, and the instant the breaker last
opened. -/
structure Breaker where
  tag : BreakerTag
  failCount : Nat
  openedAt : ℤ

/-- `fail_max=5` (source line 79). -/
def BREAKER_FAIL_MAX : Nat := 5

/-- `reset_timeout=30` seconds (source line 79). -/
def BREAKER_RESET_TIMEOUT : ℤ := 30

/-- How one gated call ends: the wrapped call's own success, the wrapped
call's own failure, or the distinct breaker-open fast failure. -/
inductive BreakerResult where
  | ok
  | providerError
  | breakerOpenError
deriving DecidableEq

/-- What one gated call did: whether the wrapped (network) call was
actually attempted, its result, and the breaker state afterwards. -/
structure BreakerOutcome where
  attempted : Bool
  result : BreakerResult
  next : Breaker

/-- Modelled from the spec: one call through the shared breaker, where
`succeeds` is whether the wrapped provider call would succeed if
attempted.  CLOSED: attempt; success resets the counter, the 5th
consecutive failure trips to OPEN.  OPEN before the 30 s cool-down:
fail fast with the distinct breaker-open error, no attempt, no counter
change.  OPEN after the cool-down (transient HALF_OPEN): attempt the
single trial; success closes the breaker, failure re-opens it. -/
def breaker_call (b : Breaker) (now : ℤ) (succeeds : Bool) : BreakerOutcome :=
  match b.tag with
  | .closed =>
    if succeeds then ⟨true, .ok, ⟨.closed, 0, b.openedAt⟩⟩
    else if b.failCount + 1 ≥ BREAKER_FAIL_MAX then
      ⟨true, .providerError, ⟨.opened, b.failCount + 1, now⟩⟩
    else ⟨true, .providerError, ⟨.closed, b.failCount + 1, b.openedAt⟩⟩
  | .opened =>
    if now - b.openedAt ≥ BREAKER_RESET_TIMEOUT then
      if succeeds then ⟨true, .ok, ⟨.closed, 0, b.openedAt⟩⟩
      else ⟨true, .providerError, ⟨.opened, b.failCount + 1, now⟩⟩
    else ⟨false, .breakerOpenError, b⟩

/-- The breaker in its process-start state. -/
def breaker_init : Breaker := ⟨.closed, 0, 0⟩

/-- Consecutive failing real calls, one per listed instant. -/
def breaker_fail_seq (b : Breaker) : List ℤ → Breaker
  | [] => b
  | t :: ts => breaker_fail_seq (breaker_call b t false).next ts

/-!
## Spec-side comparison definitions

These two definitions follow the *spec's words* (not the source); they
exist only to be compared against the source-derived definitions. -/

/-- The normalization rule as the spec words it: use the provider's
`current` object verbatim iff it is present *and contains a temperature
field*; in every other case synthesize the snapshot from the hourly
arrays. -/
def spec_normalize_current (raw : Json) : Json :=
  match raw.get "current" with
  | some c => if (c.get "temperature_2m").isSome then c else build_current_from_hourly raw
  | none => build_current_from_hourly raw

/-- The canonical payload shape as the spec words it: top-level fields
named `latitude` and `longitude`, and a field named `current`. -/
def spec_payload_field_names (p : Json) : Bool :=
  (p.get "latitude").isSome && (p.get "longitude").isSome && (p.get "current").isSome

/-!
## Conformance checks of the SHA-1 embedding

`sha1Hex` against the standard FIPS 180-1 test vectors (the same values
`hashlib.sha1(...).hexdigest()` yields), and `cache_key` on a supported
city. -/

set_option maxRecDepth 40000 in
example : sha1Hex (strBytes "abc") = "a9993e364706816aba3e25717850c26c9cd0d89d" := by decide

set_option maxRecDepth 40000 in
example : sha1Hex [] = "da39a3ee5e6b4b0d3255bfef95601890afd80709" := by decide

set_option maxRecDepth 40000 in
example : cache_key "Delhi" = "32c19aa31d5ace768bff6e89e3efb44c163d750d" := by decide

/-!
## Concrete inputs used by counterexamples and witnesses
-/

/-- A provider response whose `current` object is present and truthy but
contains no temperature field, while the hourly arrays are non-empty. -/
def c2_input : Json :=
  .obj [("current", .obj [("relative_humidity_2m", .num 50)]),
        ("hourly", .obj [("time", .arr [.str "T0"]), ("temperature_2m", .arr [.num 10])])]

/-- The `current` object inside `c2_input`. -/
def c2_current : Json := .obj [("relative_humidity_2m", .num 50)]

/-- A provider response with a truthy `current` object. -/
def c3_raw : Json := .obj [("current", .obj [("temperature_2m", .num 21)])]

/-- Hourly data of length 3 with no `current` object. -/
def c7_hourly : Json :=
  .obj [("time", .arr [.str "a", .str "b", .str "c"]),
        ("temperature_2m", .arr [.num 1, .num 2, .num 3])]

/-- A provider response carrying only `c7_hourly`. -/
def c7_input : Json := .obj [("hourly", c7_hourly)]

/-- The payload the handler builds from `c3_raw` for `jaipur`. -/
def c3_payload : Json :=
  .obj [("lat", .num 26.9124), ("lon", .num 75.7873),
        ("current_weather", .obj [("temperature_2m", .num 21)])]

/-!
## Claim theorems
-/

/-- C10 (confirmed): when the `x-api-key` header is present and non-empty,
the `key` query parameter is ignored entirely — a wrong non-empty header
rejects the request (401 from the handler) even when the query parameter
carries the correct key; the query parameter is consulted exactly when the
header is absent or empty. -/
theorem check_api_key_header_precedence (cfg : Config)
    (provider : ℚ → ℚ → Except String Json) (now : ℤ) (w : World)
    (hv : String) (q pc pr pcl : Option String)
    (hne : hv ≠ "") (hwrong : hv ≠ cfg.apiKey) :
    check_api_key cfg ⟨some hv, q, pc, pr, pcl⟩ = false
    ∧ weather cfg provider now w ⟨some hv, some cfg.apiKey, pc, pr, pcl⟩ = (.ok .unauthorized, w)
    ∧ check_api_key cfg ⟨some "", q, pc, pr, pcl⟩ = check_api_key cfg ⟨none, q, pc, pr, pcl⟩
    ∧ (∀ s, check_api_key cfg ⟨none, some s, pc, pr, pcl⟩ = (s != "" && s == cfg.apiKey)) := by
  have h1 : check_api_key cfg ⟨some hv, q, pc, pr, pcl⟩ = false := by
    simp [check_api_key, suppliedKey, hne, hwrong]
  have h2 : check_api_key cfg ⟨some hv, some cfg.apiKey, pc, pr, pcl⟩ = false := by
    simp [check_api_key, suppliedKey, hne, hwrong]
  refine ⟨h1, ?_, ?_, fun s => rfl⟩
  · simp [weather, h2]
  · simp [check_api_key, suppliedKey]

/-- Witness for C10 at a concrete request: header `"wrong"`, query key
`"dev-1234"` (the configured key) — the handler answers 401. -/
theorem check_api_key_header_precedence_witness :
    ("wrong" : String) ≠ "" ∧ "wrong" ≠ defaultConfig.apiKey
    ∧ check_api_key defaultConfig ⟨some "wrong", some "dev-1234", some "delhi", none, none⟩ = false
    ∧ weather defaultConfig (fun _ _ => .error "x") 0 ⟨fun _ => none, fun _ => none⟩
        ⟨some "wrong", some "dev-1234", some "delhi", none, none⟩
      = (.ok .unauthorized, ⟨fun _ => none, fun _ => none⟩) := by
  have h := check_api_key_header_precedence defaultConfig (fun _ _ => .error "x") 0
    ⟨fun _ => none, fun _ => none⟩ "wrong" (some "dev-1234") (some "delhi") none none
    (by decide) (by decide)
  exact ⟨by decide, by decide, h.1, h.2.1⟩

/-- C4 counterexample: a stored entry whose non-empty timestamp string
does not parse makes `get_cached` raise `ValueError` (the
`fromisoformat` call sits outside the `try`), instead of reporting the
entry absent as the claim states. -/
theorem get_cached_raises_on_unparsable_timestamp :
    get_cached defaultConfig
      (fun _ => some ⟨"delhi", .obj [("lat", .num 1)], .unparsable "not-a-timestamp"⟩)
      0 "delhi" = .error .valueError := rfl

/-- C4 (corrected): `get_cached` returns absent, not an error, when no
entry exists, when the stored timestamp field is missing or empty, and
when the entry's age exceeds the TTL; but a present, non-empty,
unparsable timestamp raises out of the function. -/
theorem get_cached_absent_cases (cfg : Config) (cT : CacheTable) (now : ℤ) (city : String) :
    (cT (cache_key city) = none → get_cached cfg cT now city = .ok none)
    ∧ (∀ ent, cT (cache_key city) = some ent → ent.timestampUtc = .falsy →
        get_cached cfg cT now city = .ok none)
    ∧ (∀ ent t, cT (cache_key city) = some ent → ent.timestampUtc = .valid t →
        cfg.cacheTtl < now - t → get_cached cfg cT now city = .ok none)
    ∧ (∀ ent s, cT (cache_key city) = some ent → ent.timestampUtc = .unparsable s →
        get_cached cfg cT now city = .error .valueError) := by
  refine ⟨fun h => by simp [get_cached, h],
    fun ent h hts => by simp [get_cached, h, hts],
    fun ent t h hts hexp => by simp [get_cached, h, hts, not_le.mpr hexp],
    fun ent s h hts => by simp [get_cached, h, hts]⟩

/-- Witness for C4 at concrete inputs: an empty table, a falsy-timestamp
entry, and an entry aged 601 s against the default 600 s TTL all read as
absent. -/
theorem get_cached_absent_cases_witness :
    ((fun _ => none : CacheTable) (cache_key "delhi") = none)
    ∧ get_cached defaultConfig (fun _ => none) 0 "delhi" = .ok none
    ∧ get_cached defaultConfig (fun _ => some ⟨"delhi", .obj [("lat", .num 1)], .falsy⟩)
        0 "delhi" = .ok none
    ∧ (defaultConfig.cacheTtl < (601:ℤ) - 0)
    ∧ get_cached defaultConfig (fun _ => some ⟨"delhi", .obj [("lat", .num 1)], .valid 0⟩)
        601 "delhi" = .ok none := by
  refine ⟨rfl, (get_cached_absent_cases defaultConfig (fun _ => none) 0 "delhi").1 rfl,
    (get_cached_absent_cases defaultConfig _ 0 "delhi").2.1 _ rfl rfl, by decide,
    (get_cached_absent_cases defaultConfig _ 601 "delhi").2.2.1 _ 0 rfl rfl (by decide)⟩

/-- C5 (confirmed): a `set_cache` followed by a `get_cached` whose
observation time is within TTL of the write returns exactly the payload
written; a `get_cached` whose observation time is past the TTL reports
absent although the written row still physically sits in the table. -/
theorem cache_set_get_roundtrip (cfg : Config) (cT : CacheTable) (tW tG tE : ℤ)
    (city : String) (payload : Json)
    (hfresh : tG - tW ≤ cfg.cacheTtl) (hexp : cfg.cacheTtl < tE - tW) :
    get_cached cfg (set_cache cT tW city payload) tG city = .ok (some payload)
    ∧ get_cached cfg (set_cache cT tW city payload) tE city = .ok none
    ∧ set_cache cT tW city payload (cache_key city) = some ⟨city, payload, .valid tW⟩ := by
  refine ⟨?_, ?_, ?_⟩
  · simp [get_cached, set_cache, hfresh]
  · simp [get_cached, set_cache, not_le.mpr hexp]
  · simp [set_cache]

/-- Witness for C5: write `delhi` at t = 0 with the default 600 s TTL;
a read at t = 600 returns the exact payload, a read at t = 601 is
absent. -/
theorem cache_set_get_roundtrip_witness :
    ((600 : ℤ) - 0 ≤ defaultConfig.cacheTtl)
    ∧ (defaultConfig.cacheTtl < (601 : ℤ) - 0)
    ∧ get_cached defaultConfig (set_cache (fun _ => none) 0 "delhi" (.obj [("a", .num 1)]))
        600 "delhi" = .ok (some (.obj [("a", .num 1)]))
    ∧ get_cached defaultConfig (set_cache (fun _ => none) 0 "delhi" (.obj [("a", .num 1)]))
        601 "delhi" = .ok none := by
  have h := cache_set_get_roundtrip defaultConfig (fun _ => none) 0 600 601 "delhi"
    (.obj [("a", .num 1)]) (by decide) (by decide)
  exact ⟨by decide, by decide, h.1, h.2.1⟩


/-- C7 (confirmed): with no usable `current` object, an empty hourly time
array synthesizes the empty object; with hourly arrays of length 3 the
synthesized snapshot takes index 2 (the last) of every hourly array and
is labelled with the timestamp at index 2 of the time array. -/
theorem build_current_from_hourly_cases (data hourly : Json)
    (hh : data.get "hourly" = some hourly) :
    (hourly.get "time" = some (.arr []) → build_current_from_hourly data = .obj [])
    ∧ (∀ t0 t1 t2 : Json, hourly.get "time" = some (.arr [t0, t1, t2]) →
        (build_current_from_hourly data).get "time" = some t2
        ∧ (∀ k, k ∈ ["temperature_2m", "relative_humidity_2m", "apparent_temperature",
              "precipitation", "wind_speed_10m", "wind_direction_10m"] →
            ∀ v0 v1 v2 : Json, hourly.get k = some (.arr [v0, v1, v2]) →
              (build_current_from_hourly data).get k = some v2)) := by
  constructor
  · intro ht
    simp only [build_current_from_hourly, Json.getD, hh, ht]
  · intro t0 t1 t2 ht
    constructor
    · simp only [build_current_from_hourly, Json.getD, hh, ht]
      rfl
    · intro k hk v0 v1 v2 hv
      simp only [List.mem_cons, List.not_mem_nil, or_false] at hk
      simp only [build_current_from_hourly, Json.getD, hh, ht]
      rcases hk with rfl | rfl | rfl | rfl | rfl | rfl <;>
        · show some (pickHourly hourly _) = some v2
          simp only [pickHourly, hv]
          rfl

/-- Witness for C7: hourly arrays `["a","b","c"]` / `[1,2,3]` with no
`current` object synthesize `time = "c"`, `temperature_2m = 3`. -/
theorem build_current_from_hourly_cases_witness :
    c7_input.get "hourly" = some c7_hourly
    ∧ c7_hourly.get "time" = some (.arr [.str "a", .str "b", .str "c"])
    ∧ (build_current_from_hourly c7_input).get "time" = some (.str "c")
    ∧ (build_current_from_hourly c7_input).get "temperature_2m" = some (.num 3) := by
  have h := (build_current_from_hourly_cases c7_input c7_hourly rfl).2
    (.str "a") (.str "b") (.str "c") rfl
  exact ⟨rfl, rfl, h.1, h.2 "temperature_2m" (by decide) (.num 1) (.num 2) (.num 3) rfl⟩

/-- Helper for C6: `n` successive same-window `rate_limit` calls from a
table with no row for that window leave the window row at count `n`,
touch no other row, and the `n`-th call returns `(n ≤ limit, n)`. -/
theorem rl_calls_spec (rT : RateTable) (now : ℤ) (key : String) (limit : Nat)
    (hempty : rT (key, window_key now) = none) :
    ∀ n : Nat, ((rl_calls rT now key limit n).2 (key, window_key now)
        = if n = 0 then none else some n)
      ∧ (∀ p, p ≠ (key, window_key now) → (rl_calls rT now key limit n).2 p = rT p)
      ∧ (n ≠ 0 → (rl_calls rT now key limit n).1 = (decide (n ≤ limit), n)) := by
  intro n
  induction n with
  | zero => exact ⟨by simpa using hempty, fun p _ => rfl, fun h => absurd rfl h⟩
  | succ m ih =>
    obtain ⟨ht, ho, _⟩ := ih
    by_cases hm : m = 0
    · subst hm
      refine ⟨?_, ?_, ?_⟩
      · simp [rl_calls, rate_limit, hempty]
      · intro p hp; simp [rl_calls, rate_limit, hempty, hp]
      · intro _; simp [rl_calls, rate_limit, hempty]
    · have ht' : (rl_calls rT now key limit m).2 (key, window_key now) = some m := by
        simpa [hm] using ht
      refine ⟨?_, ?_, ?_⟩
      · simp [rl_calls, rate_limit, ht']
      · intro p hp; simp [rl_calls, rate_limit, ht', hp, ho p hp]
      · intro _; simp [rl_calls, rate_limit, ht']

/-- C6 (confirmed): `permitted` is true exactly when the post-increment
count is at most the limit; from an empty minute window the 30th call is
permitted with count 30, the 31st rejected with count 31, and the first
call in a different minute window restarts at count 1, permitted. -/
theorem rate_limit_window_behavior (rT : RateTable) (now now2 : ℤ) (key : String)
    (hempty : rT (key, window_key now) = none)
    (hempty2 : rT (key, window_key now2) = none)
    (hdiff : window_key now2 ≠ window_key now) :
    (∀ (rT' : RateTable) (t : ℤ) (k : String),
        ((rate_limit rT' t k 30).1.1 = true ↔ (rate_limit rT' t k 30).1.2 ≤ 30))
    ∧ (rl_calls rT now key 30 30).1 = (true, 30)
    ∧ (rl_calls rT now key 30 31).1 = (false, 31)
    ∧ (rate_limit (rl_calls rT now key 30 31).2 now2 key 30).1 = (true, 1) := by
  refine ⟨?_, ?_, ?_, ?_⟩
  · intro rT' t k
    cases h : rT' (k, window_key t) <;> simp [rate_limit, h]
  · simpa using (rl_calls_spec rT now key 30 hempty 30).2.2 (by decide)
  · simpa using (rl_calls_spec rT now key 30 hempty 31).2.2 (by decide)
  · have hpre : (rl_calls rT now key 30 31).2 (key, window_key now2) = none := by
      rw [(rl_calls_spec rT now key 30 hempty 31).2.1 (key, window_key now2)
        (fun h => hdiff (congrArg Prod.snd h)), hempty2]
    simp [rate_limit, hpre]

/-- Witness for C6: key `"rl"`, empty table, calls at t = 0 (window 0)
and then one call at t = 60 (window 1). -/
theorem rate_limit_window_behavior_witness :
    ((fun _ => none : RateTable) ("rl", window_key 0) = none)
    ∧ ((fun _ => none : RateTable) ("rl", window_key 60) = none)
    ∧ window_key 60 ≠ window_key 0
    ∧ (rl_calls (fun _ => none) 0 "rl" 30 30).1 = (true, 30)
    ∧ (rl_calls (fun _ => none) 0 "rl" 30 31).1 = (false, 31)
    ∧ (rate_limit (rl_calls (fun _ => none) 0 "rl" 30 31).2 60 "rl" 30).1 = (true, 1) := by
  have h := rate_limit_window_behavior (fun _ => none) 0 60 "rl" rfl rfl (by decide)
  exact ⟨rfl, rfl, by decide, h.2.1, h.2.2.1, h.2.2.2⟩

/-- C8 (confirmed, modelled from the spec — the breaker transition logic
lives in the external `pybreaker` library): 5 consecutive real failures
trip the breaker (4 leave it closed); while OPEN within the 30 s
cool-down every call fails fast with the distinct breaker-open error,
attempts no network call and leaves the state untouched (so it never
counts as a fresh failure); once the cool-down has elapsed the single
trial call is attempted — success closes the breaker, failure re-opens it
at the trial instant. -/
theorem breaker_state_machine (t1 t2 t3 t4 t5 t : ℤ) (b : Breaker) (s : Bool)
    (hopen : b.tag = .opened) :
    breaker_fail_seq breaker_init [t1, t2, t3, t4] = ⟨.closed, 4, 0⟩
    ∧ breaker_fail_seq breaker_init [t1, t2, t3, t4, t5] = ⟨.opened, 5, t5⟩
    ∧ (t - b.openedAt < BREAKER_RESET_TIMEOUT →
        breaker_call b t s = ⟨false, .breakerOpenError, b⟩)
    ∧ (BREAKER_RESET_TIMEOUT ≤ t - b.openedAt →
        ((breaker_call b t s).attempted = true
          ∧ (s = true → (breaker_call b t s).next = ⟨.closed, 0, b.openedAt⟩)
          ∧ (s = false → (breaker_call b t s).next = ⟨.opened, b.failCount + 1, t⟩))) := by
  obtain ⟨tag, fc, oa⟩ := b
  cases hopen
  refine ⟨rfl, rfl, ?_, ?_⟩
  · intro hlt
    simp [breaker_call, not_le.mpr hlt]
  · intro hge
    refine ⟨?_, ?_, ?_⟩
    · cases s <;> simp [breaker_call, hge]
    · intro hs; subst hs; simp [breaker_call, hge]
    · intro hs; subst hs; simp [breaker_call, hge]

/-- Witness for C8: five failures at t = 1..5 open the breaker; at
openedAt = 100 a call at t = 110 fails fast without an attempt; the trial
at t = 131 re-opens on failure and closes on success. -/
theorem breaker_state_machine_witness :
    ((⟨.opened, 5, 100⟩ : Breaker).tag = .opened)
    ∧ breaker_fail_seq breaker_init [1, 2, 3, 4, 5] = ⟨.opened, 5, 5⟩
    ∧ breaker_call ⟨.opened, 5, 100⟩ 110 false = ⟨false, .breakerOpenError, ⟨.opened, 5, 100⟩⟩
    ∧ (breaker_call ⟨.opened, 5, 100⟩ 131 false).next = ⟨.opened, 6, 131⟩
    ∧ (breaker_call ⟨.opened, 5, 100⟩ 131 true).next = ⟨.closed, 0, 100⟩ := by
  have hf := breaker_state_machine 1 2 3 4 5 110 ⟨.opened, 5, 100⟩ false rfl
  have htr := breaker_state_machine 1 2 3 4 5 131 ⟨.opened, 5, 100⟩ false rfl
  have hts := breaker_state_machine 1 2 3 4 5 131 ⟨.opened, 5, 100⟩ true rfl
  exact ⟨rfl, hf.2.1, hf.2.2.1 (by decide), (htr.2.2.2 (by decide)).2.2 rfl,
    (hts.2.2.2 (by decide)).2.1 rfl⟩

/-- C2 counterexample: in `c2_input` the `current` object is present and
truthy but has no temperature field, so the claim demands synthesis from
the hourly arrays; the code instead takes the truthy `current` verbatim
(line 243 tests only truthiness), and the two rules disagree on this
input. -/
theorem select_current_temperature_cex :
    select_current c2_input ≠ spec_normalize_current c2_input := by
  intro h
  have h2 : Json.get (select_current c2_input) "time"
      = Json.get (spec_normalize_current c2_input) "time" := by rw [h]
  rw [show Json.get (select_current c2_input) "time" = none from rfl,
      show Json.get (spec_normalize_current c2_input) "time" = some (.str "T0") from rfl] at h2
  exact Option.noConfusion h2

/-- C2 (corrected): the code checks only Python truthiness, never a
temperature field — a present truthy `current` is used verbatim; failing
that, a present truthy `current_weather` is used; only when both are
missing or falsy is the snapshot synthesized from the hourly arrays. -/
theorem select_current_truthiness_chain (raw : Json) :
    (∀ c, raw.get "current" = some c → c.truthy = true → select_current raw = c)
    ∧ (∀ cw, truthyOpt (raw.get "current") = false → raw.get "current_weather" = some cw →
        cw.truthy = true → select_current raw = cw)
    ∧ (truthyOpt (raw.get "current") = false → truthyOpt (raw.get "current_weather") = false →
        select_current raw = build_current_from_hourly raw) := by
  refine ⟨?_, ?_, ?_⟩
  · intro c hc ht
    simp [select_current, orElseTruthy, hc, ht]
  · intro cw hnc hcw ht
    cases hc : raw.get "current" with
    | none => simp [select_current, orElseTruthy, hc, hcw, ht]
    | some c =>
      rw [hc] at hnc
      simp only [truthyOpt] at hnc
      simp [select_current, orElseTruthy, hc, hcw, ht, hnc]
  · intro h1 h2
    cases hc : raw.get "current" with
    | none =>
      cases hw : raw.get "current_weather" with
      | none => simp [select_current, orElseTruthy, hc, hw]
      | some cw =>
        rw [hw] at h2
        simp only [truthyOpt] at h2
        simp [select_current, orElseTruthy, hc, hw, h2]
    | some c =>
      rw [hc] at h1
      simp only [truthyOpt] at h1
      cases hw : raw.get "current_weather" with
      | none => simp [select_current, orElseTruthy, hc, hw, h1]
      | some cw =>
        rw [hw] at h2
        simp only [truthyOpt] at h2
        simp [select_current, orElseTruthy, hc, hw, h1, h2]

/-- Witness for C2: on `c2_input` the truthy `current` object is returned
verbatim. -/
theorem select_current_truthiness_chain_witness :
    c2_input.get "current" = some c2_current
    ∧ c2_current.truthy = true
    ∧ select_current c2_input = c2_current :=
  ⟨rfl, rfl, (select_current_truthiness_chain c2_input).1 c2_current rfl rfl⟩

/-- C3 counterexample: a concrete successful fetch for `jaipur` returns
(and caches) `c3_payload`, whose top-level field names are `lat`, `lon`
and `current_weather` — none of the `latitude`/`longitude`/`current`
names the claim asserts are present. -/
theorem weather_payload_field_names_cex :
    (weather defaultConfig (fun _ _ => .ok c3_raw) 0 ⟨fun _ => none, fun _ => none⟩
        ⟨some "dev-1234", none, some "jaipur", none, none⟩).1
      = .ok (.okResp "provider" "jaipur" c3_payload)
    ∧ spec_payload_field_names c3_payload = false := ⟨rfl, rfl⟩

/-- C3 (corrected): every successful provider fetch produces — both as
the 200 body and as the value written through to the cache — the payload
object whose top-level fields are named `lat`, `lon` and
`current_weather`. -/
theorem weather_fetch_payload_shape (provider : ℚ → ℚ → Except String Json) (now : ℤ)
    (w : World) (city : String) (lat lon : ℚ) (raw : Json)
    (hc : CITY_LATLON.lookup (lowerStr city) = some (lat, lon))
    (hp : provider lat lon = .ok raw) :
    weather_fetch provider now w city
      = (.ok (.okResp "provider" city
            (.obj [("lat", .num lat), ("lon", .num lon),
                   ("current_weather", select_current raw)])),
         ⟨set_cache w.cache now city
            (.obj [("lat", .num lat), ("lon", .num lon),
                   ("current_weather", select_current raw)]), w.rate⟩)
    ∧ set_cache w.cache now city
        (.obj [("lat", .num lat), ("lon", .num lon),
               ("current_weather", select_current raw)]) (cache_key city)
      = some ⟨city, .obj [("lat", .num lat), ("lon", .num lon),
               ("current_weather", select_current raw)], .valid now⟩ := by
  refine ⟨?_, ?_⟩
  · simp [weather_fetch, hc, hp]
  · simp [set_cache]

/-- Witness for C3 (amended) at `jaipur` with provider response
`c3_raw`. -/
theorem weather_fetch_payload_shape_witness :
    CITY_LATLON.lookup (lowerStr "jaipur") = some (26.9124, 75.7873)
    ∧ weather_fetch (fun _ _ => .ok c3_raw) 0 ⟨fun _ => none, fun _ => none⟩ "jaipur"
      = (.ok (.okResp "provider" "jaipur" c3_payload),
         ⟨set_cache (fun _ => none) 0 "jaipur" c3_payload, fun _ => none⟩) := by
  have h := weather_fetch_payload_shape (fun _ _ => .ok c3_raw) 0
    ⟨fun _ => none, fun _ => none⟩ "jaipur" 26.9124 75.7873 c3_raw rfl rfl
  exact ⟨rfl, h.1⟩

/-- C1 counterexample: a request for `delhi` with `refresh=1`, a fresh
truthy cache entry for `delhi` in place, and a failing provider.  The
claim demands a 200 `source=cache-fallback` answer obtained by one more
cache read; the handler's `except` branch returns the 502
`provider_failed` outcome directly — no fallback cache read exists in the
code. -/
theorem weather_no_cache_fallback_cex :
    (weather defaultConfig (fun _ _ => .error "Simulated network error") 0
        ⟨fun _ => some ⟨"delhi", .obj [("lat", .num 1)], .valid 0⟩, fun _ => none⟩
        ⟨some "dev-1234", none, some "delhi", some "1", none⟩).1
      = .ok (.providerFailed "Simulated network error")
    ∧ get_cached defaultConfig (fun _ => some ⟨"delhi", .obj [("lat", .num 1)], .valid 0⟩)
        0 "delhi" = .ok (some (.obj [("lat", .num 1)]))
    ∧ (Json.obj [("lat", .num 1)]).truthy = true := ⟨rfl, rfl, rfl⟩

/-- C1 (corrected): on every request that reaches the provider call and
whose provider fetch fails, the handler terminates with the 502
`provider_failed` outcome carrying the failure details — regardless of
what the cache holds; no second cache read happens and no
`source=cache-fallback` response exists. -/
theorem weather_provider_failure_returns_502 (cfg : Config)
    (provider : ℚ → ℚ → Except String Json) (now : ℤ) (w : World)
    (req : WeatherRequest) (city : String) (cache1 : CacheTable) (lat lon : ℚ) (msg : String)
    (hauth : check_api_key cfg req = true)
    (hcityeq : stripStr (req.paramCity.getD "") = city)
    (hcity : city ≠ "")
    (hcache1 : cache1 = if req.paramClear == some "1" then clear_cache w.cache city else w.cache)
    (hrate : (rate_limit w.rate now cfg.apiKey 30).1.1 = true)
    (hmiss : (req.paramRefresh == some "1") = true
      ∨ get_cached cfg cache1 now city = .ok none
      ∨ ∃ p, get_cached cfg cache1 now city = .ok (some p) ∧ p.truthy = false)
    (hc : CITY_LATLON.lookup (lowerStr city) = some (lat, lon))
    (hp : provider lat lon = .error msg) :
    (weather cfg provider now w req).1 = .ok (.providerFailed msg)
    ∧ statusOf (.providerFailed msg) = 502 := by
  subst hcityeq hcache1
  refine ⟨?_, rfl⟩
  rcases hmiss with hr | hm | ⟨p, hm, hpt⟩
  · simp [weather, weather_fetch, hauth, hcity, hrate, hr, hc, hp]
  · cases hrf : (req.paramRefresh == some "1") with
    | false =>
      simp only [beq_iff_eq] at hm
      simp [weather, weather_fetch, hauth, hcity, hrate, hrf, hm, hc, hp]
    | true =>
      simp [weather, weather_fetch, hauth, hcity, hrate, hrf, hc, hp]
  · cases hrf : (req.paramRefresh == some "1") with
    | false =>
      simp only [beq_iff_eq] at hm
      simp [weather, weather_fetch, hauth, hcity, hrate, hrf, hm, hpt, hc, hp]
    | true =>
      simp [weather, weather_fetch, hauth, hcity, hrate, hrf, hc, hp]

/-- Witness for C1 (amended): `delhi` with `refresh=1`, failing provider,
fresh truthy `delhi` entry in the cache — the handler answers 502. -/
theorem weather_provider_failure_returns_502_witness :
    check_api_key defaultConfig ⟨some "dev-1234", none, some "delhi", some "1", none⟩ = true
    ∧ stripStr ((some "delhi" : Option String).getD "") = "delhi"
    ∧ CITY_LATLON.lookup (lowerStr "delhi") = some (28.6139, 77.2090)
    ∧ (weather defaultConfig (fun _ _ => .error "boom") 0
        ⟨fun _ => some ⟨"delhi", .obj [("lat", .num 1)], .valid 0⟩, fun _ => none⟩
        ⟨some "dev-1234", none, some "delhi", some "1", none⟩).1
      = .ok (.providerFailed "boom") := by
  have h := weather_provider_failure_returns_502 defaultConfig (fun _ _ => .error "boom") 0
    ⟨fun _ => some ⟨"delhi", .obj [("lat", .num 1)], .valid 0⟩, fun _ => none⟩
    ⟨some "dev-1234", none, some "delhi", some "1", none⟩ "delhi"
    (fun _ => some ⟨"delhi", .obj [("lat", .num 1)], .valid 0⟩) 28.6139 77.2090 "boom"
    rfl rfl (by decide) rfl rfl (.inl rfl) rfl rfl
  exact ⟨rfl, rfl, rfl, h.1⟩

/-- C9 counterexample: a fresh cache entry for `atlantis` exists but its
stored payload is the empty object, which is falsy — the fast path misses
by truthiness and the handler falls through to city resolution, answering
`city_not_supported_in_demo` despite the fresh entry, against the claim's
"never yields city_not_supported_in_demo". -/
theorem weather_cache_order_cex :
    (weather defaultConfig (fun _ _ => .error "x") 0
        ⟨fun _ => some ⟨"atlantis", .obj [], .valid 0⟩, fun _ => none⟩
        ⟨some "dev-1234", none, some "atlantis", none, none⟩).1
      = .ok .cityNotSupported
    ∧ get_cached defaultConfig (fun _ => some ⟨"atlantis", .obj [], .valid 0⟩) 0 "atlantis"
      = .ok (some (.obj []))
    ∧ CITY_LATLON.lookup (lowerStr "atlantis") = none := ⟨rfl, rfl, rfl⟩

/-- C9 (corrected): with the refresh and clear flags unset and a fresh
cache entry whose stored payload is truthy (as every payload the handler
itself writes is), the cache fast path answers 200 `source=cache` before
city resolution ever runs — even for a city absent from `CITY_LATLON`;
only a falsy stored payload lets an unsupported city reach the
`city_not_supported_in_demo` outcome. -/
theorem weather_cache_fast_path_first (cfg : Config)
    (provider : ℚ → ℚ → Except String Json) (now : ℤ) (w : World)
    (req : WeatherRequest) (city : String) (p : Json)
    (hauth : check_api_key cfg req = true)
    (hcityeq : stripStr (req.paramCity.getD "") = city)
    (hcity : city ≠ "")
    (hnorefresh : (req.paramRefresh == some "1") = false)
    (hnoclear : (req.paramClear == some "1") = false)
    (hrate : (rate_limit w.rate now cfg.apiKey 30).1.1 = true)
    (hhit : get_cached cfg w.cache now city = .ok (some p))
    (htruthy : p.truthy = true)
    (_hunsupported : CITY_LATLON.lookup (lowerStr city) = none) :
    (weather cfg provider now w req).1 = .ok (.okResp "cache" city p)
    ∧ statusOf (.okResp "cache" city p) = 200 := by
  subst hcityeq
  refine ⟨?_, rfl⟩
  simp [weather, hauth, hcity, hnorefresh, hnoclear, hrate, hhit, htruthy]

/-- Witness for C9 (amended): a fresh truthy entry for the unsupported
city `atlantis` short-circuits to 200 `source=cache`. -/
theorem weather_cache_fast_path_first_witness :
    check_api_key defaultConfig ⟨some "dev-1234", none, some "atlantis", none, none⟩ = true
    ∧ get_cached defaultConfig (fun _ => some ⟨"atlantis", .obj [("lat", .num 1)], .valid 0⟩)
        0 "atlantis" = .ok (some (.obj [("lat", .num 1)]))
    ∧ CITY_LATLON.lookup (lowerStr "atlantis") = none
    ∧ (weather defaultConfig (fun _ _ => .error "x") 0
        ⟨fun _ => some ⟨"atlantis", .obj [("lat", .num 1)], .valid 0⟩, fun _ => none⟩
        ⟨some "dev-1234", none, some "atlantis", none, none⟩).1
      = .ok (.okResp "cache" "atlantis" (.obj [("lat", .num 1)])) := by
  have h := weather_cache_fast_path_first defaultConfig (fun _ _ => .error "x") 0
    ⟨fun _ => some ⟨"atlantis", .obj [("lat", .num 1)], .valid 0⟩, fun _ => none⟩
    ⟨some "dev-1234", none, some "atlantis", none, none⟩ "atlantis" (.obj [("lat", .num 1)])
    rfl rfl (by decide) rfl rfl rfl rfl rfl rfl
  exact ⟨rfl, rfl, rfl, h.1⟩
